import Mathlib

/-!
Verification development for the ClusterRun module (pennmem/ClusterRun,
`ClusterRun.py`): a dispatch and result-aggregation wrapper around an
external cluster-parallelism backend (ipython-cluster-helper) for the SGE
and Slurm schedulers.

The shallow embedding below translates the module's pure coordination
logic into Lean:
* `Settings` is the open attribute bag (Python `__dict__` semantics, an
  ordered association list of attribute names to values);
* `ClusterRunSGE` / `ClusterRunSlurm` build the arguments handed to the
  external `cluster_helper.cluster.cluster_view` call and return the
  order-preserving map of the user function over the parameter list (the
  external view's blocking `map`);
* `ClusterRun` is the dispatcher selecting the backend from
  `settings.scheduler` and resolving `max_jobs` / `cores_per_job` / `mem`
  from positional arguments, keyword arguments, settings, and hardcoded
  defaults;
* `ClusterChecked` (and the SGE/Slurm convenience wrappers) apply the
  truthy/falsy success policy to the returned result list, recording what
  is printed and which `RuntimeError` message (if any) is raised.

External effects appear as explicit parameters: the invoking user's home
directory and `$USER` identity are passed in, and the pickle file system
for `Settings.Save` / `Settings.Load` is explicit state.
-/

/-- A dynamically typed Python value as stored in a `Settings` attribute
or passed as an argument: a string or a natural number suffice for the
attributes this module consumes (`scheduler`, `mem` strings; `max_jobs`,
`cores_per_job` counts). -/
inductive PyVal where
  | vstr : String → PyVal
  | vnat : Nat → PyVal
deriving DecidableEq, Repr

/-- The `Settings` open attribute record: Python object `__dict__`
semantics, an insertion-ordered association list from attribute name to
value, with no fixed schema (`ClusterRun.py` lines 28-55). -/
abbrev Settings := List (String × PyVal)

/-- Python attribute read `s.key` on a `Settings` object: the value stored
under `key` in `s.__dict__`, or `none` (an `AttributeError` in Python)
when absent. -/
def getattr : Settings → String → Option PyVal
  | [], _ => none
  | (k, v) :: rest, key => if key = k then some v else getattr rest key

/-- Python attribute write `s.key = v`: replaces the value under `key` in
place when present, otherwise appends the new attribute (dict insertion
order). -/
def setattr : Settings → String → PyVal → Settings
  | [], key, v => [(key, v)]
  | (k, w) :: rest, key, v =>
      if key = k then (k, v) :: rest else (k, w) :: setattr rest key v

/-- The file system seen by `Settings.Save` / `Settings.Load`: a map from
file path to the `Settings` object whose pickle serialization the file
holds, `none` when no such file exists. The external pickle codec
(out of scope per the spec) faithfully serializes and deserializes the
object's attribute record. -/
abbrev FileStore := String → Option Settings

/-- `Settings.Save` (`ClusterRun.py` lines 40-43): writes
`pickle.dumps(self)` to `filename`, i.e. stores the object's attribute
record at that path. -/
def Settings.Save (s : Settings) (filename : String) (fs : FileStore) : FileStore :=
  fun p => if p = filename then some s else fs p

/-- `Settings.Load` (`ClusterRun.py` lines 45-47): reads and unpickles the
object stored at `filename`. -/
def Settings.Load (filename : String) (fs : FileStore) : Option Settings :=
  fs filename

/-- The argument record of one `cluster_helper.cluster.cluster_view(...)`
call: scheduler name, queue, job count, cores per job, the
`extra_params` resources string, and the profile directory. -/
structure ClusterViewArgs where
  scheduler : String
  queue : String
  num_jobs : Nat
  cores_per_job : Nat
  resources : String
  profile : String
deriving DecidableEq, Repr

/-- `ClusterRunSGE` (`ClusterRun.py` lines 58-92): requests
`min(len(parameter_list), max_jobs)` jobs from SGE on queue `RAM.q` with
the round-robin PE resources string, and maps `function` over
`parameter_list` in order through the scoped view (the external view's
blocking `map` is order preserving per the spec). `homedir` stands for
`str(Path.home())`. -/
def ClusterRunSGE (f : α → ρ) (parameter_list : List α)
    (max_jobs : Nat) (cores_per_job : Nat) (homedir : String) :
    ClusterViewArgs × List ρ :=
  let num_jobs := min parameter_list.length max_jobs
  ({ scheduler := "sge", queue := "RAM.q", num_jobs := num_jobs,
     cores_per_job := cores_per_job,
     resources := "pename=python-round-robin",
     profile := homedir ++ "/.ipython/" },
   parameter_list.map f)

/-- `ClusterRunSlurm` (`ClusterRun.py` lines 95-137): requests
`min(len(parameter_list), max_jobs)` jobs from Slurm on queue `RAM`, with
resources string `account={USER};timelimit=7-00:00:00;mem={mem}`, and
maps `function` over `parameter_list` in order through the scoped view.
`user` stands for `os.environ["USER"]`, `homedir` for
`str(Path.home())`. -/
def ClusterRunSlurm (f : α → ρ) (parameter_list : List α)
    (max_jobs : Nat) (cores_per_job : Nat) (mem : String)
    (user : String) (homedir : String) :
    ClusterViewArgs × List ρ :=
  let num_jobs := min parameter_list.length max_jobs
  ({ scheduler := "slurm", queue := "RAM", num_jobs := num_jobs,
     cores_per_job := cores_per_job,
     resources := "account=" ++ user ++ ";timelimit=7-00:00:00;mem=" ++ mem,
     profile := homedir ++ "/.ipython/" },
   parameter_list.map f)

/-- The backend invocation made at the end of `ClusterRun`
(`ClusterRun.py` lines 173-178): the SGE branch passes `max_jobs` and
`cores_per_job` only, the Slurm branch additionally passes `mem`. -/
inductive BackendCall where
  | sge (max_jobs cores_per_job : PyVal)
  | slurm (max_jobs cores_per_job mem : PyVal)
deriving DecidableEq, Repr

/-- The `max_jobs` value handed to the selected backend. -/
def BackendCall.maxJobs : BackendCall → PyVal
  | .sge m _ => m
  | .slurm m _ _ => m

/-- The `cores_per_job` value handed to the selected backend. -/
def BackendCall.coresPerJob : BackendCall → PyVal
  | .sge _ c => c
  | .slurm _ c _ => c

/-- The `mem` argument handed to the selected backend: `none` on the SGE
branch, which passes no `mem` at all. -/
def BackendCall.memArg : BackendCall → Option PyVal
  | .sge _ _ => none
  | .slurm _ _ m => some m

/-- Whether the Slurm backend was selected. -/
def BackendCall.isSlurm : BackendCall → Bool
  | .sge _ _ => false
  | .slurm _ _ _ => true

/-- The keyword arguments of a `ClusterRun` call that the dispatcher
inspects: `settings`, `max_jobs`, `cores_per_job`, `mem`, each absent or
present. -/
structure Kwargs where
  settings : Option Settings
  max_jobs : Option PyVal
  cores_per_job : Option PyVal
  mem : Option PyVal
deriving DecidableEq, Repr

/-- Backend selection from the optional settings object (`ClusterRun.py`
lines 141-142 and 147-148): default `mapping['sge']`; when a settings
object is supplied, `mapping[kwargs['settings'].scheduler]` is evaluated
unconditionally — a missing `scheduler` attribute is an `AttributeError`
and an unknown scheduler name is a `KeyError`. -/
def schedDispatch : Option Settings → Except String Bool
  | none => .ok false
  | some s =>
    match getattr s "scheduler" with
    | none => .error "AttributeError: Settings object has no attribute scheduler"
    | some (.vstr "sge") => .ok false
    | some (.vstr "slurm") => .ok true
    | some _ => .error "KeyError: scheduler value not in mapping"

/-- The settings-derived fallback for one resource parameter
(`ClusterRun.py` lines 149-154): the attribute value when a settings
object carrying it was supplied, else the hardcoded default. -/
def settingsDefault (os : Option Settings) (key : String) (dflt : PyVal) : PyVal :=
  match os with
  | none => dflt
  | some s => (getattr s key).getD dflt

/-- One resource parameter's final value (`ClusterRun.py` lines 157-171):
the positional argument when present, else the keyword argument when
present, else the settings-derived fallback. -/
def resolveOne (posv kwv : Option PyVal) (sv : PyVal) : PyVal :=
  match posv with
  | some v => v
  | none => kwv.getD sv

/-- `ClusterRun` (`ClusterRun.py` lines 140-178): selects the backend
from `settings.scheduler` (default SGE), resolves `max_jobs`,
`cores_per_job` and `mem` from positional arguments (`extraPos` holds
`args[2:]`), keyword arguments and settings against the hardcoded
defaults `100`, `1`, `"5GB"`, and invokes the selected backend — with
`mem` passed only on the Slurm branch. -/
def ClusterRun (extraPos : List PyVal) (kw : Kwargs) : Except String BackendCall :=
  match schedDispatch kw.settings with
  | .error e => .error e
  | .ok slurmSelected =>
    let mj := resolveOne (extraPos.get? 0) kw.max_jobs
      (settingsDefault kw.settings "max_jobs" (.vnat 100))
    let cj := resolveOne (extraPos.get? 1) kw.cores_per_job
      (settingsDefault kw.settings "cores_per_job" (.vnat 1))
    let mm := resolveOne (extraPos.get? 2) kw.mem
      (settingsDefault kw.settings "mem" (.vstr "5GB"))
    if slurmSelected then .ok (.slurm mj cj mm) else .ok (.sge mj cj)

/-- Modelled from the spec's words (§4.3): the claimed precedence chain
for a resource parameter — positional argument first, then keyword
argument, then the value carried by the settings object, then the
hardcoded default. Stated independently of the source's
removal-before-fallback code so the two can be compared. -/
def precedenceResolve (posv kwv sv : Option PyVal) (dflt : PyVal) : PyVal :=
  match posv with
  | some v => v
  | none =>
    match kwv with
    | some v => v
    | none => sv.getD dflt

/-- `not bool(res[i])` for an index into the result list: true exactly
when index `i` is in range and the result there is falsy. -/
def truthyFailAt (truthy : ρ → Bool) (res : List ρ) (i : Nat) : Bool :=
  match res.get? i with
  | some r => ! truthy r
  | none => false

/-- `str(parameter_list[i])` (the empty string standing in for the
out-of-range case, which `ClusterChecked` never reaches since the result
list is the map of the function over the parameter list). -/
def paramStrAt (pstr : α → String) (pl : List α) (i : Nat) : String :=
  match pl.get? i with
  | some a => pstr a
  | none => ""

/-- The generator expression of `ClusterRun.py` lines 192-193:
`str(parameter_list[i]) for i in range(len(res)) if not bool(res[i])` —
the full parameter list indexed at each falsy result index. -/
def failedParamStrs (pstr : α → String) (truthy : ρ → Bool)
    (pl : List α) (res : List ρ) : List String :=
  ((List.range res.length).filter (truthyFailAt truthy res)).map (paramStrAt pstr pl)

/-- `failed = sum([not bool(b) for b in res])` (`ClusterRun.py` line
187): the number of falsy results. -/
def failedCount (truthy : ρ → Bool) (res : List ρ) : Nat :=
  (res.filter (fun r => ! truthy r)).length

/-- What one `ClusterChecked` call does observably: the lines it prints
and the `RuntimeError` message it raises (`none` when it returns
normally). -/
structure CheckReport where
  printed : List String
  error : Option String
deriving DecidableEq, Repr

/-- `ClusterChecked` (`ClusterRun.py` lines 181-194): runs the batch —
`res` is the order-preserving map of `function` over `parameter_list`
returned by `ClusterRun` — then applies the success policy: all-truthy
prints `All n jobs successful.`; all-falsy raises
`All n jobs failed!`; a mixed outcome prints the parameter values at the
falsy result indices and raises `k of n jobs failed!`. `pstr` is the
`str(...)` rendering of a parameter and `truthy` is Python `bool(...)`
on a result. -/
def ClusterChecked (pstr : α → String) (truthy : ρ → Bool)
    (f : α → ρ) (parameter_list : List α) : CheckReport :=
  let res := parameter_list.map f
  if res.all truthy then
    { printed := ["All " ++ toString res.length ++ " jobs successful."],
      error := none }
  else if failedCount truthy res = res.length then
    { printed := [],
      error := some ("All " ++ toString (failedCount truthy res) ++ " jobs failed!") }
  else
    { printed := ["Error on job parameters:\n  " ++
        String.intercalate "\n  " (failedParamStrs pstr truthy parameter_list res)],
      error := some (toString (failedCount truthy res) ++ " of " ++
        toString res.length ++ " jobs failed!") }

/-- `ClusterCheckedSGE` (`ClusterRun.py` lines 196-202): takes the
caller-supplied settings object (or a fresh empty one), forces its
`scheduler` attribute to `'sge'`, stores it back into the keyword
arguments, and delegates to `ClusterChecked` with the same function,
parameter list and remaining arguments. The returned triple is the
delegated `ClusterChecked` outcome together with the positional and
keyword arguments it was delegated with. -/
def ClusterCheckedSGE (pstr : α → String) (truthy : ρ → Bool)
    (f : α → ρ) (parameter_list : List α)
    (extraPos : List PyVal) (kw : Kwargs) :
    CheckReport × List PyVal × Kwargs :=
  let s := setattr (kw.settings.getD []) "scheduler" (.vstr "sge")
  (ClusterChecked pstr truthy f parameter_list, extraPos,
   { kw with settings := some s })

/-- `ClusterCheckedSlurm` (`ClusterRun.py` lines 204-210): as
`ClusterCheckedSGE` but forcing `scheduler` to `'slurm'`. -/
def ClusterCheckedSlurm (pstr : α → String) (truthy : ρ → Bool)
    (f : α → ρ) (parameter_list : List α)
    (extraPos : List PyVal) (kw : Kwargs) :
    CheckReport × List PyVal × Kwargs :=
  let s := setattr (kw.settings.getD []) "scheduler" (.vstr "slurm")
  (ClusterChecked pstr truthy f parameter_list, extraPos,
   { kw with settings := some s })

/-- Reading back the attribute just written returns the written value. -/
theorem getattr_setattr_same (s : Settings) (key : String) (v : PyVal) :
    getattr (setattr s key v) key = some v := by
  induction s with
  | nil => simp [setattr, getattr]
  | cons p rest ih =>
    obtain ⟨k, w⟩ := p
    by_cases h : key = k
    · simp [setattr, getattr, h]
    · simp [setattr, getattr, h, ih]

/-- Writing one attribute leaves every other attribute unchanged. -/
theorem getattr_setattr_other (s : Settings) (key k2 : String) (v : PyVal)
    (h : k2 ≠ key) :
    getattr (setattr s key v) k2 = getattr s k2 := by
  induction s with
  | nil => simp [setattr, getattr, h]
  | cons p rest ih =>
    obtain ⟨k, w⟩ := p
    by_cases hk : key = k
    · subst hk
      simp [setattr, getattr, h]
    · by_cases h2 : k2 = k
      · simp [setattr, getattr, hk, h2]
      · simp [setattr, getattr, hk, h2, ih]

/-- Claim C5: both backends request exactly `min(len(parameter_list),
max_jobs)` jobs from the scheduler, and in particular the requested job
count equals the parameter count whenever `max_jobs` exceeds it. -/
theorem spec_C5_job_count {α ρ : Type} (f : α → ρ) (pl : List α)
    (m cj : Nat) (mem user home : String) :
    (ClusterRunSGE f pl m cj home).1.num_jobs = min pl.length m ∧
    (ClusterRunSlurm f pl m cj mem user home).1.num_jobs = min pl.length m ∧
    (pl.length < m →
      (ClusterRunSGE f pl m cj home).1.num_jobs = pl.length ∧
      (ClusterRunSlurm f pl m cj mem user home).1.num_jobs = pl.length) := by
  refine ⟨rfl, rfl, fun h => ⟨?_, ?_⟩⟩ <;>
    simp [ClusterRunSGE, ClusterRunSlurm, Nat.min_eq_left (Nat.le_of_lt h)]

/-- Witness for C5 at a concrete batch of two parameters and
`max_jobs = 5`. -/
theorem spec_C5_witness :
    (ClusterRunSGE (fun n : Nat => n) [0, 1] 5 1 "/h").1.num_jobs = min 2 5 ∧
    (ClusterRunSlurm (fun n : Nat => n) [0, 1] 5 1 "5GB" "u" "/h").1.num_jobs = min 2 5 ∧
    ((ClusterRunSGE (fun n : Nat => n) [0, 1] 5 1 "/h").1.num_jobs = 2 ∧
     (ClusterRunSlurm (fun n : Nat => n) [0, 1] 5 1 "5GB" "u" "/h").1.num_jobs = 2) := by
  have h := spec_C5_job_count (fun n : Nat => n) [0, 1] 5 1 "5GB" "u" "/h"
  exact ⟨h.1, h.2.1, h.2.2 (by decide)⟩

/-- Claim C7: `Settings.Save` followed by `Settings.Load` on the same
path yields the object with the identical attribute record. -/
theorem spec_C7_roundtrip (s : Settings) (filename : String) (fs : FileStore) :
    Settings.Load filename (Settings.Save s filename fs) = some s := by
  simp [Settings.Load, Settings.Save]

/-- Claim C10: on the empty parameter list `ClusterChecked` takes the
all-truthy branch vacuously, raising no error and reporting success
count `0`. -/
theorem spec_C10_empty {α ρ : Type} (pstr : α → String) (truthy : ρ → Bool)
    (f : α → ρ) :
    ClusterChecked pstr truthy f ([] : List α) =
      { printed := ["All 0 jobs successful."], error := none } := by
  simp only [ClusterChecked, List.map_nil, List.all_nil, if_true, List.length_nil]
  rfl

/-- Claim C1 counterexample: a supplied settings object without a
`scheduler` attribute makes `ClusterRun` fail with an `AttributeError`
instead of dispatching to the SGE backend. -/
theorem spec_C1_counterexample :
    ClusterRun [] { settings := some [], max_jobs := none,
                    cores_per_job := none, mem := none } =
      .error "AttributeError: Settings object has no attribute scheduler" := rfl

/-- Claim C1 (amended): dispatch defaults to the SGE backend only when no
settings object is supplied; when one is supplied its `scheduler`
attribute is read unconditionally, and its absence raises an
`AttributeError` rather than defaulting to SGE. -/
theorem spec_C1_default_dispatch (extraPos : List PyVal) (kw : Kwargs) :
    (kw.settings = none → ClusterRun extraPos kw =
      .ok (.sge (resolveOne (extraPos.get? 0) kw.max_jobs (.vnat 100))
                (resolveOne (extraPos.get? 1) kw.cores_per_job (.vnat 1)))) ∧
    (∀ s, kw.settings = some s → getattr s "scheduler" = none →
      ClusterRun extraPos kw =
        .error "AttributeError: Settings object has no attribute scheduler") := by
  constructor
  · intro h
    simp [ClusterRun, h, schedDispatch, settingsDefault]
  · intro s hs hg
    simp [ClusterRun, hs, schedDispatch, hg]

/-- Witness for the amended C1: with no settings object the SGE backend
is invoked with the hardcoded defaults, and with an attribute-less
settings object the call fails. -/
theorem spec_C1_witness :
    ClusterRun [] { settings := none, max_jobs := none,
                    cores_per_job := none, mem := none } =
      .ok (.sge (.vnat 100) (.vnat 1)) ∧
    ClusterRun [] { settings := some [], max_jobs := none,
                    cores_per_job := none, mem := none } =
      .error "AttributeError: Settings object has no attribute scheduler" := by
  refine ⟨?_, ?_⟩
  · exact (spec_C1_default_dispatch []
      { settings := none, max_jobs := none, cores_per_job := none, mem := none }).1 rfl
  · exact (spec_C1_default_dispatch []
      { settings := some [], max_jobs := none, cores_per_job := none, mem := none }).2
      [] rfl rfl

/-- Claim C9: `ClusterCheckedSGE` and `ClusterCheckedSlurm` force the
`scheduler` attribute of the caller-supplied (or freshly created)
settings object to `'sge'` / `'slurm'` before delegating to
`ClusterChecked`, overwriting any stored scheduler while leaving every
other attribute, the function, the parameter list, and the remaining
positional and keyword arguments unchanged. -/
theorem spec_C9_forced_scheduler {α ρ : Type} (pstr : α → String)
    (truthy : ρ → Bool) (f : α → ρ) (pl : List α)
    (extraPos : List PyVal) (kw : Kwargs) :
    (getattr (((ClusterCheckedSGE pstr truthy f pl extraPos kw).2.2.settings).getD [])
        "scheduler" = some (.vstr "sge")) ∧
    (∀ k, k ≠ "scheduler" →
      getattr (((ClusterCheckedSGE pstr truthy f pl extraPos kw).2.2.settings).getD []) k
        = getattr (kw.settings.getD []) k) ∧
    (ClusterCheckedSGE pstr truthy f pl extraPos kw).1 = ClusterChecked pstr truthy f pl ∧
    (ClusterCheckedSGE pstr truthy f pl extraPos kw).2.1 = extraPos ∧
    (ClusterCheckedSGE pstr truthy f pl extraPos kw).2.2.max_jobs = kw.max_jobs ∧
    (ClusterCheckedSGE pstr truthy f pl extraPos kw).2.2.cores_per_job = kw.cores_per_job ∧
    (ClusterCheckedSGE pstr truthy f pl extraPos kw).2.2.mem = kw.mem ∧
    (getattr (((ClusterCheckedSlurm pstr truthy f pl extraPos kw).2.2.settings).getD [])
        "scheduler" = some (.vstr "slurm")) ∧
    (∀ k, k ≠ "scheduler" →
      getattr (((ClusterCheckedSlurm pstr truthy f pl extraPos kw).2.2.settings).getD []) k
        = getattr (kw.settings.getD []) k) ∧
    (ClusterCheckedSlurm pstr truthy f pl extraPos kw).1 = ClusterChecked pstr truthy f pl ∧
    (ClusterCheckedSlurm pstr truthy f pl extraPos kw).2.1 = extraPos ∧
    (ClusterCheckedSlurm pstr truthy f pl extraPos kw).2.2.max_jobs = kw.max_jobs ∧
    (ClusterCheckedSlurm pstr truthy f pl extraPos kw).2.2.cores_per_job = kw.cores_per_job ∧
    (ClusterCheckedSlurm pstr truthy f pl extraPos kw).2.2.mem = kw.mem := by
  refine ⟨?_, ?_, rfl, rfl, rfl, rfl, rfl, ?_, ?_, rfl, rfl, rfl, rfl, rfl⟩
  · simpa [ClusterCheckedSGE] using
      getattr_setattr_same (kw.settings.getD []) "scheduler" (.vstr "sge")
  · intro k hk
    simpa [ClusterCheckedSGE] using
      getattr_setattr_other (kw.settings.getD []) "scheduler" k (.vstr "sge") hk
  · simpa [ClusterCheckedSlurm] using
      getattr_setattr_same (kw.settings.getD []) "scheduler" (.vstr "slurm")
  · intro k hk
    simpa [ClusterCheckedSlurm] using
      getattr_setattr_other (kw.settings.getD []) "scheduler" k (.vstr "slurm") hk

/-- Witness for C9: a caller-stored `scheduler = 'slurm'` is overwritten
to `'sge'` while the unrelated `mem` attribute survives. -/
theorem spec_C9_witness :
    getattr (((ClusterCheckedSGE (fun n : Nat => toString n) (fun b : Bool => b)
        (fun _ => true) [1] []
        { settings := some [("scheduler", .vstr "slurm"), ("mem", .vstr "9GB")],
          max_jobs := none, cores_per_job := none, mem := none }).2.2.settings).getD [])
      "scheduler" = some (.vstr "sge") ∧
    getattr (((ClusterCheckedSGE (fun n : Nat => toString n) (fun b : Bool => b)
        (fun _ => true) [1] []
        { settings := some [("scheduler", .vstr "slurm"), ("mem", .vstr "9GB")],
          max_jobs := none, cores_per_job := none, mem := none }).2.2.settings).getD [])
      "mem" = some (.vstr "9GB") := by
  have h := spec_C9_forced_scheduler (fun n : Nat => toString n) (fun b : Bool => b)
      (fun _ => true) [1] []
      { settings := some [("scheduler", .vstr "slurm"), ("mem", .vstr "9GB")],
        max_jobs := none, cores_per_job := none, mem := none }
  refine ⟨h.1, ?_⟩
  have h2 := h.2.1 "mem" (by decide)
  rw [h2]
  rfl

/-- The settings-derived fallback is the attribute lookup through the
optional settings object, defaulted. -/
theorem settingsDefault_eq_bind (os : Option Settings) (key : String) (dflt : PyVal) :
    settingsDefault os key dflt = (os.bind (fun s => getattr s key)).getD dflt := by
  cases os <;> rfl

/-- The source's removal-before-fallback resolution agrees with the
spec-worded precedence chain. -/
theorem resolveOne_eq_precedence (posv kwv sv : Option PyVal) (dflt : PyVal) :
    resolveOne posv kwv (sv.getD dflt) = precedenceResolve posv kwv sv dflt := by
  cases posv <;> cases kwv <;> rfl

/-- Claim C6: each resource parameter handed to the backend resolves by
the precedence chain positional argument, then keyword argument, then
settings attribute, then the hardcoded defaults `100` jobs, `1` core,
`"5GB"` (the `mem` value being observable on the Slurm branch, the only
one it is forwarded on). -/
theorem spec_C6_precedence (extraPos : List PyVal) (kw : Kwargs) (c : BackendCall)
    (h : ClusterRun extraPos kw = .ok c) :
    c.maxJobs = precedenceResolve (extraPos.get? 0) kw.max_jobs
        (kw.settings.bind (fun s => getattr s "max_jobs")) (.vnat 100) ∧
    c.coresPerJob = precedenceResolve (extraPos.get? 1) kw.cores_per_job
        (kw.settings.bind (fun s => getattr s "cores_per_job")) (.vnat 1) ∧
    (c.isSlurm = true → c.memArg = some (precedenceResolve (extraPos.get? 2) kw.mem
        (kw.settings.bind (fun s => getattr s "mem")) (.vstr "5GB"))) := by
  unfold ClusterRun at h
  cases hd : schedDispatch kw.settings with
  | error e => rw [hd] at h; simp at h
  | ok b =>
    rw [hd] at h
    cases b with
    | false =>
      simp only [if_false, Bool.false_eq_true, Except.ok.injEq] at h
      subst h
      refine ⟨?_, ?_, ?_⟩
      · rw [BackendCall.maxJobs, settingsDefault_eq_bind, resolveOne_eq_precedence]
      · rw [BackendCall.coresPerJob, settingsDefault_eq_bind, resolveOne_eq_precedence]
      · intro hs; simp [BackendCall.isSlurm] at hs
    | true =>
      simp only [if_true, Except.ok.injEq] at h
      subst h
      refine ⟨?_, ?_, fun _ => ?_⟩
      · rw [BackendCall.maxJobs, settingsDefault_eq_bind, resolveOne_eq_precedence]
      · rw [BackendCall.coresPerJob, settingsDefault_eq_bind, resolveOne_eq_precedence]
      · rw [BackendCall.memArg, settingsDefault_eq_bind, resolveOne_eq_precedence]

/-- Witness for C6: a keyword `cores_per_job = 3` overrides the
settings-stored `cores_per_job = 7`, while `max_jobs` falls back to the
hardcoded `100`. -/
theorem spec_C6_witness :
    (BackendCall.sge (.vnat 100) (.vnat 3)).maxJobs = .vnat 100 ∧
    (BackendCall.sge (.vnat 100) (.vnat 3)).coresPerJob = .vnat 3 := by
  have h := spec_C6_precedence []
      { settings := some [("scheduler", .vstr "sge"), ("cores_per_job", .vnat 7)],
        max_jobs := none, cores_per_job := some (.vnat 3), mem := none }
      (.sge (.vnat 100) (.vnat 3)) rfl
  exact ⟨h.1.trans (by rfl), h.2.1.trans (by rfl)⟩

/-- Claim C8: the `mem` parameter reaches the backend exactly when the
Slurm backend is selected; the Slurm `cluster_view` resources string
carries the invoking user's identity and the fixed 7-day time limit
alongside `mem`, while the SGE `cluster_view` call receives no `mem` and
its resources string is the fixed round-robin PE request. -/
theorem spec_C8_mem_forwarding {α ρ : Type} (f : α → ρ) (pl : List α)
    (m cj : Nat) (mem user home : String) :
    (∀ (extraPos : List PyVal) (kw : Kwargs) (c : BackendCall),
        ClusterRun extraPos kw = .ok c → (c.memArg.isSome ↔ c.isSlurm = true)) ∧
    (ClusterRunSlurm f pl m cj mem user home).1.resources =
      "account=" ++ user ++ ";timelimit=7-00:00:00;mem=" ++ mem ∧
    (ClusterRunSGE f pl m cj home).1.resources = "pename=python-round-robin" := by
  refine ⟨?_, rfl, rfl⟩
  intro extraPos kw c h
  unfold ClusterRun at h
  cases hd : schedDispatch kw.settings with
  | error e => rw [hd] at h; simp at h
  | ok b =>
    rw [hd] at h
    cases b with
    | false =>
      simp only [if_false, Bool.false_eq_true, Except.ok.injEq] at h
      subst h
      simp [BackendCall.memArg, BackendCall.isSlurm]
    | true =>
      simp only [if_true, Except.ok.injEq] at h
      subst h
      simp [BackendCall.memArg, BackendCall.isSlurm]

/-- Witness for C8: the default dispatch produces an SGE backend call
carrying no `mem` argument. -/
theorem spec_C8_witness :
    (BackendCall.sge (.vnat 100) (.vnat 1)).memArg.isSome ↔
      (BackendCall.sge (.vnat 100) (.vnat 1)).isSlurm = true := by
  exact (spec_C8_mem_forwarding (fun n : Nat => n) [] 1 1 "5GB" "u" "/h").1 []
    { settings := none, max_jobs := none, cores_per_job := none, mem := none }
    (.sge (.vnat 100) (.vnat 1)) rfl

/-- A result list containing a falsy element is not all-truthy. -/
theorem all_eq_false_of_mem_falsy {ρ : Type} (truthy : ρ → Bool) (res : List ρ)
    (r : ρ) (hr : r ∈ res) (hfr : truthy r = false) : res.all truthy = false := by
  cases hall : res.all truthy
  · rfl
  · rw [List.all_eq_true] at hall
    have := hall r hr
    rw [hfr] at this
    exact absurd this (by simp)

/-- Index check at position zero of a cons result list. -/
theorem truthyFailAt_zero {ρ : Type} (truthy : ρ → Bool) (r : ρ) (res : List ρ) :
    truthyFailAt truthy (r :: res) 0 = ! truthy r := rfl

/-- Index check at a successor position walks past the head. -/
theorem truthyFailAt_cons {ρ : Type} (truthy : ρ → Bool) (r : ρ) (res : List ρ)
    (i : Nat) : truthyFailAt truthy (r :: res) (i + 1) = truthyFailAt truthy res i := rfl

/-- Parameter rendering at position zero of a cons parameter list. -/
theorem paramStrAt_zero {α : Type} (pstr : α → String) (a : α) (pl : List α) :
    paramStrAt pstr (a :: pl) 0 = pstr a := rfl

/-- Parameter rendering at a successor position walks past the head. -/
theorem paramStrAt_comp_succ {α : Type} (pstr : α → String) (a : α) (pl : List α) :
    (paramStrAt pstr (a :: pl)) ∘ Nat.succ = paramStrAt pstr pl := by
  funext i
  rfl

/-- Filtering a successor-shifted index list is the shift of filtering
with the shifted predicate. -/
theorem filter_map_succ (p : Nat → Bool) (l : List Nat) :
    (l.map Nat.succ).filter p = (l.filter (fun i => p (i + 1))).map Nat.succ := by
  induction l with
  | nil => rfl
  | cons x xs ih =>
    by_cases h : p (x + 1) <;> simp [List.filter_cons, Nat.succ_eq_add_one, h, ih]

/-- The printed failure lines of the mixed branch: indexing the full
parameter list at each falsy result index yields exactly the parameters
at failing positions, rendered in order. -/
theorem failedParamStrs_map {α ρ : Type} (pstr : α → String) (truthy : ρ → Bool)
    (f : α → ρ) (pl : List α) :
    failedParamStrs pstr truthy pl (pl.map f) =
      (pl.filter (fun a => ! truthy (f a))).map pstr := by
  induction pl with
  | nil => rfl
  | cons a tl ih =>
    unfold failedParamStrs at ih ⊢
    rw [List.map_cons, List.length_cons, List.range_succ_eq_map, List.filter_cons,
      truthyFailAt_zero, filter_map_succ]
    simp only [truthyFailAt_cons]
    cases hb : truthy (f a) with
    | false =>
      simp only [hb, Bool.not_false, if_true, List.filter_cons, List.map_cons,
        List.map_map, paramStrAt_comp_succ, paramStrAt_zero, ih]
    | true =>
      simp [hb, List.filter_cons, List.map_map, paramStrAt_comp_succ]
      simpa [List.length_map] using ih

/-- Claim C4: with every result truthy, `ClusterChecked` raises no error
and prints a success count equal to the parameter list's length. -/
theorem spec_C4_all_success {α ρ : Type} (pstr : α → String) (truthy : ρ → Bool)
    (f : α → ρ) (pl : List α) (hall : ∀ a ∈ pl, truthy (f a) = true) :
    ClusterChecked pstr truthy f pl =
      { printed := ["All " ++ toString pl.length ++ " jobs successful."],
        error := none } := by
  have h1 : (pl.map f).all truthy = true := by
    rw [List.all_eq_true]
    intro r hr
    obtain ⟨a, ha, rfl⟩ := List.mem_map.mp hr
    exact hall a ha
  simp [ClusterChecked, h1, List.length_map]

/-- Witness for C4: two truthy results report `All 2 jobs successful.`
with no error raised. -/
theorem spec_C4_witness :
    ClusterChecked (fun n : Nat => toString n) (fun b : Bool => b)
        (fun _ => true) [5, 6] =
      { printed := ["All 2 jobs successful."], error := none } := by
  have h := spec_C4_all_success (fun n : Nat => toString n) (fun b : Bool => b)
      (fun _ => true) [5, 6] (fun a _ => rfl)
  exact h.trans (by rfl)

/-- Claim C3: with every result falsy on a non-empty batch,
`ClusterChecked` raises `All n jobs failed!` with `n` the result list's
length (nothing is printed first). -/
theorem spec_C3_all_failed {α ρ : Type} (pstr : α → String) (truthy : ρ → Bool)
    (f : α → ρ) (pl : List α) (hne : pl ≠ [])
    (hall : ∀ a ∈ pl, truthy (f a) = false) :
    ClusterChecked pstr truthy f pl =
      { printed := [],
        error := some ("All " ++ toString pl.length ++ " jobs failed!") } := by
  obtain ⟨a, ha⟩ := List.exists_mem_of_ne_nil pl hne
  have h1 : (pl.map f).all truthy = false :=
    all_eq_false_of_mem_falsy truthy _ (f a) (List.mem_map.mpr ⟨a, ha, rfl⟩) (hall a ha)
  have h2 : failedCount truthy (pl.map f) = (pl.map f).length := by
    unfold failedCount
    congr 1
    rw [List.filter_eq_self]
    intro r hr
    obtain ⟨b, hb, rfl⟩ := List.mem_map.mp hr
    rw [hall b hb]
    rfl
  simp [ClusterChecked, h1, h2, List.length_map]

/-- Witness for C3: two falsy results raise `All 2 jobs failed!`. -/
theorem spec_C3_witness :
    ClusterChecked (fun n : Nat => toString n) (fun b : Bool => b)
        (fun _ => false) [5, 6] =
      { printed := [], error := some "All 2 jobs failed!" } := by
  have h := spec_C3_all_failed (fun n : Nat => toString n) (fun b : Bool => b)
      (fun _ => false) [5, 6] (by simp) (fun a _ => rfl)
  exact h.trans (by rfl)

/-- Claim C2: with `k` falsy results out of `n` where `0 < k < n`,
`ClusterChecked` first prints the parameter values indexed from the full
parameter list at each falsy result index — exactly the parameters at
failing positions — then raises `k of n jobs failed!`. -/
theorem spec_C2_mixed {α ρ : Type} (pstr : α → String) (truthy : ρ → Bool)
    (f : α → ρ) (pl : List α) (k : Nat)
    (hk : failedCount truthy (pl.map f) = k) (h0 : 0 < k) (hn : k < pl.length) :
    ClusterChecked pstr truthy f pl =
      { printed := ["Error on job parameters:\n  " ++ String.intercalate "\n  "
          ((pl.filter (fun a => ! truthy (f a))).map pstr)],
        error := some (toString k ++ " of " ++ toString pl.length ++
          " jobs failed!") } := by
  have hpos : 0 < ((pl.map f).filter (fun r => ! truthy r)).length := by
    rw [show ((pl.map f).filter (fun r => ! truthy r)).length =
      failedCount truthy (pl.map f) from rfl, hk]
    exact h0
  obtain ⟨r, hrmem⟩ := List.exists_mem_of_ne_nil _ (List.length_pos.mp hpos)
  have hrres : r ∈ pl.map f := (List.mem_filter.mp hrmem).1
  have hrf : truthy r = false := by
    have h := (List.mem_filter.mp hrmem).2
    cases hc : truthy r
    · rfl
    · rw [hc] at h
      exact absurd h (by simp)
  have h1 : (pl.map f).all truthy = false :=
    all_eq_false_of_mem_falsy truthy _ r hrres hrf
  have h2 : ¬ (k = pl.length) := Nat.ne_of_lt hn
  simp [ClusterChecked, h1, h2, hk, List.length_map, failedParamStrs_map]

/-- Witness for C2: parity results on `[10, 11, 12]` fail only at `11`,
printing that parameter and raising `1 of 3 jobs failed!`. -/
theorem spec_C2_witness :
    ClusterChecked (fun n : Nat => toString n) (fun b : Bool => b)
        (fun n => decide (n % 2 = 0)) [10, 11, 12] =
      { printed := ["Error on job parameters:\n  11"],
        error := some "1 of 3 jobs failed!" } := by
  have h := spec_C2_mixed (fun n : Nat => toString n) (fun b : Bool => b)
      (fun n => decide (n % 2 = 0)) [10, 11, 12] 1 (by rfl) (by decide) (by decide)
  exact h.trans (by rfl)
